import Mathlib

/-!
Verification of the Hera execution-extension (file src/bin/hera/src/hera.rs)
against its natural-language specification.

The stateful notification loop is embedded shallowly: the asynchronous
channel is a finite trace of recv results (a closed channel yields none),
the event-send operation is an oracle indexed by the number of sends so
far, and the loop is a structurally recursive function over the trace
returning the list of successfully emitted FinishedHeight values together
with the outcome of the loop. The filesystem and the superchain registry
are oracles passed to the config-resolution functions. The validation
dispatcher is absent from the source (HeraExEx::start is a todo), so the
Trusted strategy is modelled from the spec and marked as such.
-/

namespace Hera

/-- Embeds the only field of a sealed block header the gate observes:
committed_chain.tip().block.header().number, a u64 height (comparisons
only, so Nat is faithful). -/
structure Chain where
  tipNumber : Nat
deriving DecidableEq, Repr

/-- Embeds a reth ExEx notification as consumed by the loop: the
committed_chain() accessor returns an optional committed chain. -/
structure ExExNotification where
  committedChain : Option Chain
deriving DecidableEq, Repr

/-- Embeds superchain_registry BlockNumHash as read by the gate (only the
number field is touched). -/
structure BlockNumHash where
  number : Nat
deriving DecidableEq, Repr

/-- Embeds the genesis section of the rollup configuration: the L1 anchor
block reference cfg.genesis.l1. -/
structure ChainGenesis where
  l1 : BlockNumHash
deriving DecidableEq, Repr

/-- Embeds superchain_registry RollupConfig, restricted to the field the
source reads (cfg.genesis.l1.number). -/
structure RollupConfig where
  genesis : ChainGenesis
deriving DecidableEq, Repr

/-- Outcome of HeraExEx::wait_for_l2_genesis_l1_block on a finite trace of
recv results: reachedGenesis is the break Ok(()) exit, sendError the
bail! on a failed events.send, pending means the trace ended while the
loop was still awaiting the next notification. -/
inductive GateOutcome
  | reachedGenesis
  | sendError (tip : Nat)
  | pending
deriving DecidableEq, Repr

/-- Embeds HeraExEx::wait_for_l2_genesis_l1_block. Arguments: the rollup
configuration, the send oracle (whether the k-th events.send succeeds),
the trace of recv results, and the count of sends so far. Mirrors the
source line by line: a recv of none falls through the if-let and the loop
continues; a notification without a committed chain likewise; otherwise
the tip height is read, FinishedHeight(tip) is sent (bail on failure),
and the loop breaks Ok when tip >= cfg.genesis.l1.number, else recurses.
Returns the successfully sent FinishedHeight values in order, and the
outcome. -/
def waitForL2GenesisL1Block (cfg : RollupConfig) (sendOk : Nat → Bool) :
    List (Option ExExNotification) → Nat → List Nat × GateOutcome
  | [], _ => ([], .pending)
  | none :: rest, k => waitForL2GenesisL1Block cfg sendOk rest k
  | some notif :: rest, k =>
    match notif.committedChain with
    | none => waitForL2GenesisL1Block cfg sendOk rest k
    | some chain =>
      let tip := chain.tipNumber
      if sendOk k then
        if cfg.genesis.l1.number ≤ tip then
          ([tip], .reachedGenesis)
        else
          let r := waitForL2GenesisL1Block cfg sendOk rest (k + 1)
          (tip :: r.1, r.2)
      else
        ([], .sendError tip)

/-- A recv result carrying a committed chain with the given tip height. -/
def chainNotif (t : Nat) : Option ExExNotification :=
  some { committedChain := some { tipNumber := t } }

/-- Runs the gate on a trace of chain-carrying notifications with the
given tip heights, with every send succeeding. -/
def runGate (cfg : RollupConfig) (tips : List Nat) : List Nat × GateOutcome :=
  waitForL2GenesisL1Block cfg (fun _ => true) (tips.map chainNotif) 0

/-- Tip heights of the chain-carrying notifications in a recv trace, in
order. -/
def chainTips : List (Option ExExNotification) → List Nat
  | [] => []
  | none :: rest => chainTips rest
  | some notif :: rest =>
    match notif.committedChain with
    | none => chainTips rest
    | some chain => chain.tipNumber :: chainTips rest

/-- Acknowledgments the gate emits on a tip sequence when every send
succeeds: every tip strictly below the anchor, then the first tip at or
above it, where the run stops. -/
def gateAcks (anchor : Nat) : List Nat → List Nat
  | [] => []
  | t :: ts => if anchor ≤ t then [t] else t :: gateAcks anchor ts

/-- Outcome of the gate on a tip sequence when every send succeeds. -/
def gateDone (anchor : Nat) : List Nat → GateOutcome
  | [] => .pending
  | t :: ts => if anchor ≤ t then .reachedGenesis else gateDone anchor ts

/-- Embeds the ValidationMode enum of the source. -/
inductive ValidationMode
  | Trusted
  | EngineApi
deriving DecidableEq, Repr

/-- Embeds str::to_lowercase as the character-wise lowercase map over the
contents of the string (faithful on ASCII, which is all the two match
arms compare against). -/
def toLowercase (s : String) : String :=
  ⟨s.data.map Char.toLower⟩

/-- Embeds the FromStr implementation for ValidationMode: the input is
lowercased and matched against the two literals; anything else yields an
error message carrying the original input. -/
def ValidationMode.fromStr (s : String) : Except String ValidationMode :=
  if toLowercase s = "trusted" then .ok .Trusted
  else if toLowercase s = "engine-api" then .ok .EngineApi
  else .error ("Invalid validation mode: " ++ s)

/-- Embeds the CLI argument values of HeraArgsExt that config resolution
and parse-time validation read; validationModeValue is the raw value of
the validation-mode flag as supplied on the command line, URLs and paths
are carried as strings. -/
structure HeraArgsExt where
  l2ChainId : Nat
  l2ConfigFile : Option String
  validationModeValue : String
  l2EngineApiUrl : Option String
  l2EngineJwtSecret : Option String
deriving DecidableEq, Repr

/-- Models the declared clap constraint on the validation_mode argument,
requires_ifs([("engine-api", "l2_engine_api_url"), ("engine-api",
"l2_engine_jwt_secret")]): when the supplied value equals "engine-api",
both the engine API URL and the JWT secret path must be present, and clap
rejects the invocation during argument parsing otherwise. -/
def validationModeRequiresCheck (args : HeraArgsExt) : Except String Unit :=
  if args.validationModeValue = "engine-api" then
    if args.l2EngineApiUrl.isNone then
      .error "the required argument hera.l2-engine-api-url was not provided"
    else if args.l2EngineJwtSecret.isNone then
      .error "the required argument hera.l2-engine-jwt-secret was not provided"
    else .ok ()
  else .ok ()

/-- Models clap argument parsing for the Hera extension arguments as
declared in the source: the validation-mode value is parsed via FromStr
and the declared requires_ifs constraint is enforced, both before the run
closure executes. -/
def parseHeraArgs (args : HeraArgsExt) : Except String ValidationMode := do
  let mode ← ValidationMode.fromStr args.validationModeValue
  let _ ← validationModeRequiresCheck args
  pure mode

/-- Embeds the config-resolution prefix of HeraCli::run. The filesystem is
an oracle fsLoad mapping a path to the result of File::open followed by
from_reader (an error stands for a file that cannot be opened or parsed,
with the wrap_err context already applied); the registry lookup
RollupConfig::from_l2_chain_id is an oracle over the chain ID. An ok
result means run proceeds to launch the node with the resolved
configuration; an error means run bails before install_exex, so the
pipeline never starts. -/
def resolveRollupConfig (args : HeraArgsExt)
    (fsLoad : String → Except String RollupConfig)
    (registry : Nat → Option RollupConfig) : Except String RollupConfig :=
  match args.l2ConfigFile with
  | some path => fsLoad path
  | none =>
    match registry args.l2ChainId with
    | some cfg => .ok cfg
    | none => .error ("Failed to find l2 config for chain ID " ++ toString args.l2ChainId)

/-- Models the full startup sequence of the exex subcommand: clap parses
and validates the arguments, then HeraCli::run resolves the rollup
configuration; only if both succeed is the node builder invoked and the
pipeline installed. -/
def heraStartup (args : HeraArgsExt)
    (fsLoad : String → Except String RollupConfig)
    (registry : Nat → Option RollupConfig) :
    Except String (ValidationMode × RollupConfig) := do
  let mode ← parseHeraArgs args
  let cfg ← resolveRollupConfig args fsLoad registry
  pure (mode, cfg)

/-- Modelled from the spec: the outcome of a payload validation, one of
Valid, Invalid carrying a field-level diff, or Indeterminate carrying a
cause; the source implements no validator (HeraExEx::start is a todo),
so this follows the ValidationOutcome description of the spec. -/
inductive ValidationOutcome
  | Valid
  | Invalid (fieldDiff : List String)
  | Indeterminate (cause : String)
deriving DecidableEq, Repr

/-- Modelled from the spec: the fields of a block the Trusted strategy
compares byte-for-byte (hash, state root, receipts root), each carried as
a byte sequence. -/
structure ComparedBlockFields where
  hash : List Nat
  stateRoot : List Nat
  receiptsRoot : List Nat
deriving DecidableEq, Repr

/-- Modelled from the spec: a derived payload awaiting validation, with
its height and the compared fields. -/
structure DerivedPayload where
  height : Nat
  fields : ComparedBlockFields
deriving DecidableEq, Repr

/-- Modelled from the spec: the field-level diff between a payload and the
trusted endpoint response, naming each compared field that differs. -/
def trustedFieldDiff (a b : ComparedBlockFields) : List String :=
  (if a.hash = b.hash then [] else ["hash"]) ++
  (if a.stateRoot = b.stateRoot then [] else ["state_root"]) ++
  (if a.receiptsRoot = b.receiptsRoot then [] else ["receipts_root"])

/-- Modelled from the spec: the Trusted validation strategy, missing from
the source (HeraExEx::start is a todo before any validation dispatch).
The trusted comparison endpoint is an oracle from height to an optional
block (none when unreachable or the block is not final); the strategy
fetches the equivalent block by the payload height, returns Indeterminate
when the fetch yields nothing, Valid when every compared field is equal,
and Invalid with the field-level diff otherwise. -/
def validateTrusted (fetch : Nat → Option ComparedBlockFields)
    (p : DerivedPayload) : ValidationOutcome :=
  match fetch p.height with
  | none => .Indeterminate "trusted endpoint unreachable or block not final"
  | some b =>
    if p.fields = b then .Valid else .Invalid (trustedFieldDiff p.fields b)

theorem waitForL2GenesisL1Block_allOk (cfg : RollupConfig)
    (l : List (Option ExExNotification)) :
    ∀ k, waitForL2GenesisL1Block cfg (fun _ => true) l k =
      (gateAcks cfg.genesis.l1.number (chainTips l),
       gateDone cfg.genesis.l1.number (chainTips l)) := by
  induction l with
  | nil => intro k; rfl
  | cons o rest ih =>
    intro k
    match o with
    | none =>
      simpa [waitForL2GenesisL1Block, chainTips] using ih k
    | some notif =>
      match h : notif.committedChain with
      | none =>
        simp [waitForL2GenesisL1Block, chainTips, h]
        exact ih k
      | some chain =>
        by_cases hge : cfg.genesis.l1.number ≤ chain.tipNumber
        · simp [waitForL2GenesisL1Block, chainTips, h, hge, gateAcks, gateDone]
        · simp [waitForL2GenesisL1Block, chainTips, h, hge, gateAcks, gateDone, ih (k + 1)]

theorem chainTips_map_chainNotif (tips : List Nat) :
    chainTips (tips.map chainNotif) = tips := by
  induction tips with
  | nil => rfl
  | cons t ts ih => simp [chainNotif, chainTips, ih]

theorem runGate_eq (cfg : RollupConfig) (tips : List Nat) :
    runGate cfg tips =
      (gateAcks cfg.genesis.l1.number tips, gateDone cfg.genesis.l1.number tips) := by
  simp [runGate, waitForL2GenesisL1Block_allOk, chainTips_map_chainNotif]

theorem gateAcks_append_below (a : Nat) (below l : List Nat)
    (hb : ∀ x ∈ below, x < a) :
    gateAcks a (below ++ l) = below ++ gateAcks a l := by
  induction below with
  | nil => rfl
  | cons t ts ih =>
    have ht : t < a := hb t (List.mem_cons_self t ts)
    have hts : ∀ x ∈ ts, x < a := fun x hx => hb x (List.mem_cons_of_mem t hx)
    simp [gateAcks, Nat.not_le.mpr ht, ih hts]

theorem gateDone_append_below (a : Nat) (below l : List Nat)
    (hb : ∀ x ∈ below, x < a) :
    gateDone a (below ++ l) = gateDone a l := by
  induction below with
  | nil => rfl
  | cons t ts ih =>
    have ht : t < a := hb t (List.mem_cons_self t ts)
    have hts : ∀ x ∈ ts, x < a := fun x hx => hb x (List.mem_cons_of_mem t hx)
    simp [gateDone, Nat.not_le.mpr ht, ih hts]

theorem gateAcks_countP_le_one (a : Nat) (l : List Nat) :
    (gateAcks a l).countP (fun t => decide (a ≤ t)) ≤ 1 := by
  induction l with
  | nil => simp [gateAcks]
  | cons t ts ih =>
    by_cases h : a ≤ t
    · simp [gateAcks, h, List.countP_cons]
    · simp [gateAcks, h, List.countP_cons, ih]

/-- C1: on a trace whose chain tips are any heights strictly below the
anchor followed by one tip at or above it, the gate acknowledges each
below-anchor tip and keeps waiting, then returns success exactly on the
first tip at or above the anchor, regardless of what follows and without
requiring intermediate heights to be visited; on a trace of tips all
strictly below the anchor it is still waiting. -/
theorem wait_returns_on_first_tip_at_or_above_anchor (cfg : RollupConfig)
    (below : List Nat) (t : Nat) (rest : List Nat)
    (hb : ∀ x ∈ below, x < cfg.genesis.l1.number)
    (ht : cfg.genesis.l1.number ≤ t) :
    runGate cfg (below ++ t :: rest) = (below ++ [t], .reachedGenesis) ∧
    (runGate cfg below).2 = .pending := by
  constructor
  · rw [runGate_eq, gateAcks_append_below _ _ _ hb, gateDone_append_below _ _ _ hb]
    simp [gateAcks, gateDone, ht]
  · rw [runGate_eq]
    have : gateDone cfg.genesis.l1.number (below ++ []) = gateDone cfg.genesis.l1.number [] :=
      gateDone_append_below _ _ _ hb
    simpa [gateDone] using this

theorem wait_returns_on_first_tip_at_or_above_anchor_witness :
    runGate ⟨⟨⟨100⟩⟩⟩ ([50, 90] ++ 150 :: []) = ([50, 90] ++ [150], .reachedGenesis) ∧
    (runGate ⟨⟨⟨100⟩⟩⟩ [50, 90]).2 = .pending :=
  wait_returns_on_first_tip_at_or_above_anchor ⟨⟨⟨100⟩⟩⟩ [50, 90] 150 []
    (by decide) (by decide)

/-- C2: on any recv trace, when every send succeeds the loop emits exactly
one FinishedHeight acknowledgment per chain-carrying notification it
processes, in processing order (each acknowledgment is sent before the
next recv, which the recursion structure encodes), including while still
waiting for genesis; concretely, with anchor height 100 and tips
[50, 90, 150] the acknowledgments are [50, 90, 150] in order and the gate
reports reached-genesis only on the third. -/
theorem ack_emitted_once_per_processed_segment :
    (∀ (cfg : RollupConfig) (l : List (Option ExExNotification)) (k : Nat),
        waitForL2GenesisL1Block cfg (fun _ => true) l k =
          (gateAcks cfg.genesis.l1.number (chainTips l),
           gateDone cfg.genesis.l1.number (chainTips l))) ∧
    runGate ⟨⟨⟨100⟩⟩⟩ [50, 90, 150] = ([50, 90, 150], .reachedGenesis) ∧
    (runGate ⟨⟨⟨100⟩⟩⟩ [50]).2 = .pending ∧
    (runGate ⟨⟨⟨100⟩⟩⟩ [50, 90]).2 = .pending := by
  refine ⟨fun cfg l k => waitForL2GenesisL1Block_allOk cfg l k, ?_, ?_, ?_⟩ <;> decide

/-- C3: if the events.send of the FinishedHeight acknowledgment fails at a
chain-carrying notification, the loop bails out with an error at once:
the remaining trace is never consumed and no acknowledgment is recorded. -/
theorem send_failure_terminates_loop (cfg : RollupConfig) (sendOk : Nat → Bool)
    (chain : Chain) (rest : List (Option ExExNotification)) (k : Nat)
    (hfail : sendOk k = false) :
    waitForL2GenesisL1Block cfg sendOk
      (some { committedChain := some chain } :: rest) k =
      ([], .sendError chain.tipNumber) := by
  simp [waitForL2GenesisL1Block, hfail]

theorem send_failure_terminates_loop_witness :
    waitForL2GenesisL1Block ⟨⟨⟨100⟩⟩⟩ (fun _ => false)
      (some { committedChain := some ⟨50⟩ } :: [chainNotif 150]) 0 =
      ([], .sendError 50) :=
  send_failure_terminates_loop ⟨⟨⟨100⟩⟩⟩ (fun _ => false) ⟨50⟩ [chainNotif 150] 0 rfl

/-- C4: a recv result of none (the closed-channel signal) is silently
skipped by the if-let and the loop proceeds to poll the channel again
with unchanged state: consumption does not stop and no terminal
host-disconnected outcome is produced, contradicting the specified
termination on channel closure. -/
theorem closed_channel_signal_is_repolled (cfg : RollupConfig) (sendOk : Nat → Bool)
    (rest : List (Option ExExNotification)) (k : Nat) :
    waitForL2GenesisL1Block cfg sendOk (none :: rest) k =
      waitForL2GenesisL1Block cfg sendOk rest k := rfl

/-- C7: once a send succeeds on a chain-carrying notification whose tip is
at or above the anchor, the loop returns reached-genesis immediately:
the rest of the trace is never consumed, so the genesis transition cannot
be re-triggered by any later notification, and over any all-sends-succeed
run the acknowledgment list contains at most one tip at or above the
anchor (a single genesis-transition event per run). -/
theorem genesis_transition_happens_at_most_once (cfg : RollupConfig)
    (sendOk : Nat → Bool) (chain : Chain)
    (rest : List (Option ExExNotification)) (k : Nat)
    (hs : sendOk k = true) (ht : cfg.genesis.l1.number ≤ chain.tipNumber) :
    waitForL2GenesisL1Block cfg sendOk
      (some { committedChain := some chain } :: rest) k =
      ([chain.tipNumber], .reachedGenesis) ∧
    ∀ (cfg2 : RollupConfig) (tips : List Nat),
      ((runGate cfg2 tips).1.countP (fun x => decide (cfg2.genesis.l1.number ≤ x))) ≤ 1 := by
  constructor
  · simp [waitForL2GenesisL1Block, hs, ht]
  · intro cfg2 tips
    rw [runGate_eq]
    exact gateAcks_countP_le_one _ _

theorem genesis_transition_happens_at_most_once_witness :
    (waitForL2GenesisL1Block ⟨⟨⟨100⟩⟩⟩ (fun _ => true)
        (some { committedChain := some ⟨150⟩ } :: [chainNotif 200]) 0 =
      ([150], .reachedGenesis) ∧
    ∀ (cfg2 : RollupConfig) (tips : List Nat),
      ((runGate cfg2 tips).1.countP (fun x => decide (cfg2.genesis.l1.number ≤ x))) ≤ 1) :=
  genesis_transition_happens_at_most_once ⟨⟨⟨100⟩⟩⟩ (fun _ => true) ⟨150⟩
    [chainNotif 200] 0 rfl (by decide)

/-- C10: a notification that carries no committed chain is skipped whole:
the run on it is identical to the run without it, so no acknowledgment is
emitted for it, the genesis comparison is not performed, and the send
counter and every other observable of the loop are unchanged. -/
theorem chainless_notification_is_skipped (cfg : RollupConfig) (sendOk : Nat → Bool)
    (notif : ExExNotification) (hn : notif.committedChain = none)
    (rest : List (Option ExExNotification)) (k : Nat) :
    waitForL2GenesisL1Block cfg sendOk (some notif :: rest) k =
      waitForL2GenesisL1Block cfg sendOk rest k := by
  simp [waitForL2GenesisL1Block, hn]

theorem chainless_notification_is_skipped_witness :
    waitForL2GenesisL1Block ⟨⟨⟨100⟩⟩⟩ (fun _ => true)
      (some { committedChain := none } :: [chainNotif 150]) 0 =
      waitForL2GenesisL1Block ⟨⟨⟨100⟩⟩⟩ (fun _ => true) [chainNotif 150] 0 :=
  chainless_notification_is_skipped ⟨⟨⟨100⟩⟩⟩ (fun _ => true) ⟨none⟩ rfl [chainNotif 150] 0

/-- C5 counterexample: the raw flag value "Engine-API" selects the
EngineApi validation mode through the case-insensitive FromStr, yet the
clap requires_ifs constraint compares the raw supplied value against the
literal "engine-api" and does not fire, so argument parsing succeeds and
startup proceeds with both the engine API URL and the JWT secret absent:
the claimed universal configuration-load-time rejection fails on this
input. -/
theorem engine_api_case_variant_bypasses_requires :
    parseHeraArgs ⟨10, none, "Engine-API", none, none⟩ = .ok .EngineApi ∧
    (heraStartup ⟨10, none, "Engine-API", none, none⟩
        (fun _ => .error "Failed to open l2 config file")
        (fun _ => some ⟨⟨⟨100⟩⟩⟩)).isOk = true :=
  ⟨rfl, rfl⟩

/-- C5 (amended): an invocation whose validation-mode flag is the exact
raw value "engine-api" while the engine API URL or the JWT secret path is
absent is rejected during argument parsing with a descriptive error
naming the missing argument, and the startup sequence consequently
errors out before any configuration is resolved or any pipeline is
started, whatever the filesystem and registry contain; case-variant
spellings of the flag escape this check. -/
theorem engine_api_mode_requires_credentials (args : HeraArgsExt)
    (fsLoad : String → Except String RollupConfig)
    (registry : Nat → Option RollupConfig)
    (hm : args.validationModeValue = "engine-api")
    (hmiss : args.l2EngineApiUrl = none ∨ args.l2EngineJwtSecret = none) :
    (parseHeraArgs args =
        .error "the required argument hera.l2-engine-api-url was not provided" ∨
      parseHeraArgs args =
        .error "the required argument hera.l2-engine-jwt-secret was not provided") ∧
    (heraStartup args fsLoad registry).isOk = false := by
  have hfs : ValidationMode.fromStr args.validationModeValue = .ok .EngineApi := by
    rw [hm, ValidationMode.fromStr, if_neg (by decide), if_pos (by decide)]
  rcases hmiss with hu | hj
  · have hcheck : validationModeRequiresCheck args =
        .error "the required argument hera.l2-engine-api-url was not provided" := by
      simp [validationModeRequiresCheck, hm, hu]
    have hp : parseHeraArgs args =
        .error "the required argument hera.l2-engine-api-url was not provided" := by
      simp [parseHeraArgs, hfs, hcheck, Bind.bind, Except.bind]
    exact ⟨Or.inl hp, by simp [heraStartup, hp, Bind.bind, Except.bind, Except.isOk, Except.toBool]⟩
  · by_cases hu : args.l2EngineApiUrl = none
    · have hcheck : validationModeRequiresCheck args =
          .error "the required argument hera.l2-engine-api-url was not provided" := by
        simp [validationModeRequiresCheck, hm, hu]
      have hp : parseHeraArgs args =
          .error "the required argument hera.l2-engine-api-url was not provided" := by
        simp [parseHeraArgs, hfs, hcheck, Bind.bind, Except.bind]
      exact ⟨Or.inl hp, by simp [heraStartup, hp, Bind.bind, Except.bind, Except.isOk, Except.toBool]⟩
    · have hcheck : validationModeRequiresCheck args =
          .error "the required argument hera.l2-engine-jwt-secret was not provided" := by
        simp [validationModeRequiresCheck, hm, hu, hj]
      have hp : parseHeraArgs args =
          .error "the required argument hera.l2-engine-jwt-secret was not provided" := by
        simp [parseHeraArgs, hfs, hcheck, Bind.bind, Except.bind]
      exact ⟨Or.inr hp, by simp [heraStartup, hp, Bind.bind, Except.bind, Except.isOk, Except.toBool]⟩

theorem engine_api_mode_requires_credentials_witness :
    (parseHeraArgs ⟨10, none, "engine-api", some "http://localhost:8551", none⟩ =
        .error "the required argument hera.l2-engine-api-url was not provided" ∨
      parseHeraArgs ⟨10, none, "engine-api", some "http://localhost:8551", none⟩ =
        .error "the required argument hera.l2-engine-jwt-secret was not provided") ∧
    (heraStartup ⟨10, none, "engine-api", some "http://localhost:8551", none⟩
        (fun _ => .ok ⟨⟨⟨100⟩⟩⟩) (fun _ => some ⟨⟨⟨100⟩⟩⟩)).isOk = false :=
  engine_api_mode_requires_credentials _ _ _ rfl (Or.inr rfl)

/-- C6: with no config-file override, a chain ID absent from the registry
makes startup fail with the fatal error naming the chain ID; and a
supplied config file that cannot be opened or parsed likewise fails
startup; in both cases no pipeline is ever started. -/
theorem missing_config_fails_startup (args : HeraArgsExt)
    (fsLoad : String → Except String RollupConfig)
    (registry : Nat → Option RollupConfig) :
    (args.l2ConfigFile = none → registry args.l2ChainId = none →
      resolveRollupConfig args fsLoad registry =
        .error ("Failed to find l2 config for chain ID " ++ toString args.l2ChainId) ∧
      (heraStartup args fsLoad registry).isOk = false) ∧
    (∀ path e, args.l2ConfigFile = some path → fsLoad path = .error e →
      resolveRollupConfig args fsLoad registry = .error e ∧
      (heraStartup args fsLoad registry).isOk = false) := by
  constructor
  · intro hf hr
    have hres : resolveRollupConfig args fsLoad registry =
        .error ("Failed to find l2 config for chain ID " ++ toString args.l2ChainId) := by
      simp [resolveRollupConfig, hf, hr]
    refine ⟨hres, ?_⟩
    cases hp : parseHeraArgs args with
    | error e => simp [heraStartup, hp, Bind.bind, Except.bind, Except.isOk, Except.toBool]
    | ok m => simp [heraStartup, hp, hres, Bind.bind, Except.bind, Except.isOk, Except.toBool]
  · intro path e hf he
    have hres : resolveRollupConfig args fsLoad registry = .error e := by
      simp [resolveRollupConfig, hf, he]
    refine ⟨hres, ?_⟩
    cases hp : parseHeraArgs args with
    | error e2 => simp [heraStartup, hp, Bind.bind, Except.bind, Except.isOk, Except.toBool]
    | ok m => simp [heraStartup, hp, hres, Bind.bind, Except.bind, Except.isOk, Except.toBool]

theorem missing_config_fails_startup_witness :
    (resolveRollupConfig ⟨999, none, "trusted", none, none⟩
        (fun _ => .error "Failed to open l2 config file") (fun _ => none) =
      .error ("Failed to find l2 config for chain ID " ++ toString 999) ∧
    (heraStartup ⟨999, none, "trusted", none, none⟩
        (fun _ => .error "Failed to open l2 config file") (fun _ => none)).isOk = false) ∧
    (resolveRollupConfig ⟨10, some "cfg.json", "trusted", none, none⟩
        (fun _ => .error "Failed to open l2 config file") (fun _ => none) =
      .error "Failed to open l2 config file" ∧
    (heraStartup ⟨10, some "cfg.json", "trusted", none, none⟩
        (fun _ => .error "Failed to open l2 config file") (fun _ => none)).isOk = false) :=
  ⟨(missing_config_fails_startup ⟨999, none, "trusted", none, none⟩
      (fun _ => .error "Failed to open l2 config file") (fun _ => none)).1 rfl rfl,
   (missing_config_fails_startup ⟨10, some "cfg.json", "trusted", none, none⟩
      (fun _ => .error "Failed to open l2 config file") (fun _ => none)).2
     "cfg.json" "Failed to open l2 config file" rfl rfl⟩

/-- C8: in Trusted mode, validate fetches the equivalent block by height
from the trusted endpoint and returns Valid when every compared field is
equal, Invalid with a field-level diff naming the state root when the
state roots differ, and Indeterminate when the endpoint is unreachable or
the block not final. -/
theorem trusted_validate_outcomes (fetch : Nat → Option ComparedBlockFields)
    (p : DerivedPayload) (b : ComparedBlockFields) :
    (fetch p.height = some p.fields → validateTrusted fetch p = .Valid) ∧
    (fetch p.height = some b → p.fields.stateRoot ≠ b.stateRoot →
      validateTrusted fetch p = .Invalid (trustedFieldDiff p.fields b) ∧
      "state_root" ∈ trustedFieldDiff p.fields b) ∧
    (fetch p.height = none →
      validateTrusted fetch p =
        .Indeterminate "trusted endpoint unreachable or block not final") := by
  refine ⟨fun h => ?_, fun h hsr => ?_, fun h => ?_⟩
  · simp [validateTrusted, h]
  · have hne : p.fields ≠ b := fun he => hsr (by rw [he])
    constructor
    · simp [validateTrusted, h, hne]
    · by_cases hh : p.fields.hash = b.hash <;>
        by_cases hr : p.fields.receiptsRoot = b.receiptsRoot <;>
        simp [trustedFieldDiff, hh, hr, hsr]
  · simp [validateTrusted, h]

theorem trusted_validate_outcomes_witness :
    validateTrusted (fun _ => some ⟨[1], [2], [3]⟩) ⟨7, ⟨[1], [2], [3]⟩⟩ = .Valid ∧
    (validateTrusted (fun _ => some ⟨[1], [9], [3]⟩) ⟨7, ⟨[1], [2], [3]⟩⟩ =
        .Invalid (trustedFieldDiff ⟨[1], [2], [3]⟩ ⟨[1], [9], [3]⟩) ∧
      "state_root" ∈ trustedFieldDiff ⟨[1], [2], [3]⟩ ⟨[1], [9], [3]⟩) ∧
    validateTrusted (fun _ => none) ⟨7, ⟨[1], [2], [3]⟩⟩ =
      .Indeterminate "trusted endpoint unreachable or block not final" :=
  ⟨(trusted_validate_outcomes (fun _ => some ⟨[1], [2], [3]⟩) ⟨7, ⟨[1], [2], [3]⟩⟩
      ⟨[1], [2], [3]⟩).1 rfl,
   (trusted_validate_outcomes (fun _ => some ⟨[1], [9], [3]⟩) ⟨7, ⟨[1], [2], [3]⟩⟩
      ⟨[1], [9], [3]⟩).2.1 rfl (by decide),
   (trusted_validate_outcomes (fun _ => none) ⟨7, ⟨[1], [2], [3]⟩⟩
      ⟨[1], [2], [3]⟩).2.2 rfl⟩

/-- C9: ValidationMode parsing is case-insensitive and total: any string
whose lowercased form is "trusted" parses to Trusted, any string whose
lowercased form is "engine-api" parses to EngineApi, and any other string
yields an error message carrying the offending input; the function is
total by construction, so no input panics. -/
theorem validation_mode_from_str_cases (s : String) :
    (toLowercase s = "trusted" → ValidationMode.fromStr s = .ok .Trusted) ∧
    (toLowercase s = "engine-api" → ValidationMode.fromStr s = .ok .EngineApi) ∧
    (toLowercase s ≠ "trusted" → toLowercase s ≠ "engine-api" →
      ValidationMode.fromStr s = .error ("Invalid validation mode: " ++ s)) := by
  refine ⟨fun h => ?_, fun h => ?_, fun h1 h2 => ?_⟩
  · simp [ValidationMode.fromStr, h]
  · rw [ValidationMode.fromStr, if_neg (by rw [h]; decide), if_pos h]
  · rw [ValidationMode.fromStr, if_neg h1, if_neg h2]

theorem validation_mode_from_str_cases_witness :
    ValidationMode.fromStr "TrUsTeD" = .ok .Trusted ∧
    ValidationMode.fromStr "Engine-API" = .ok .EngineApi ∧
    ValidationMode.fromStr "bogus" = .error ("Invalid validation mode: " ++ "bogus") :=
  ⟨(validation_mode_from_str_cases "TrUsTeD").1 (by decide),
   (validation_mode_from_str_cases "Engine-API").2.1 (by decide),
   (validation_mode_from_str_cases "bogus").2.2 (by decide) (by decide)⟩

end Hera
